import Mathlib

/-!
Verification of the idle-timer actor (`idleTimer` in the ssh package) and the
RSA key-loading helpers (`LoadRSAPrivateKey` / `LoadRSAPublicKey`) of the
sshego repository, as a shallow embedding in Lean 4.

The actor loop of `backgroundStart` owns all non-atomic timer state; we model
its body as a pure step function over an explicit state type, with the
monotonic clock `monoNow()` passed in as an explicit `now : Nat` argument
(uint64 nanoseconds).  Channel operations of callers (`SetIdleTimeout`,
`GetIdleTimeout`, `setTimeoutCallback`, `Stop`) are modelled as select
primitives racing against the Halter's stop signal.
-/

namespace Sshego

/-- Go `time.Duration`, an `int64` count of nanoseconds. -/
abbrev Duration := Int

/-- `2^64`, the modulus of Go's `uint64` arithmetic. -/
def U64 : Nat := 2 ^ 64

/-- Go's `uint64(i)` conversion of an `int64` value. -/
def uint64OfInt (i : Int) : Nat := (i % (U64 : Int)).toNat

/-- `t.NanosecSince()`: `monoNow() - atomic.LoadUint64(&t.last)` in wrapping
`uint64` arithmetic. -/
def nanosecSince (now last : Nat) : Nat :=
  (now % U64 + (U64 - last % U64)) % U64

/-- The state owned by the `backgroundStart` goroutine of an `idleTimer`,
together with the atomically shared `last` timestamp.
`tickerActive` records whether `heartbeat`/`heartch` are non-nil (they are
always set and cleared together in the source); `hasCallback` records whether
`timeoutCallback` is non-nil. -/
structure TimerState where
  dur : Duration
  last : Nat
  timeOutRaised : Bool
  hasCallback : Bool
  tickerActive : Bool
deriving Repr, DecidableEq

/-- One event serviced by the actor loop's `select` (or, for `reset`, an
interleaved atomic `Reset()` by a caller).  `setIdleTimeout` and `reset`
carry the value `monoNow()` would return at that moment. -/
inductive Msg where
  | reqStop
  | queryTimedOut
  | setCallback (has : Bool)
  | queryGetIdleTimeout
  | setIdleTimeout (newdur : Duration) (now : Nat)
  | tick (now : Nat)
  | reset (now : Nat)
deriving Repr, DecidableEq

/-- Observable effects of servicing one event: whether the ticket's `done`
channel was closed, what was sent on `TimedOut` / `getIdleTimeoutCh`, and
whether `go t.timeoutCallback()` spawned the callback on a fresh goroutine. -/
structure Output where
  ackClosed : Bool := false
  sentTimedOut : Option Bool := none
  sentDur : Option Duration := none
  spawnedCallback : Bool := false
deriving Repr, DecidableEq

/-- Result of one iteration of the actor loop: continue with a new state and
observable output, exit the loop (on the stop signal), or abort the process. -/
inductive StepResult where
  | next (s : TimerState) (out : Output)
  | exited (s : TimerState)
  | panicked (msg : String)
deriving Repr, DecidableEq

/-- The `case tk := <-t.setIdleTimeoutCh:` arm of the loop, translated
line by line from the source. -/
def handleSetIdleTimeout (s : TimerState) (newdur : Duration) (now : Nat) :
    TimerState × Output :=
  if 0 < s.dur then
    -- timeouts active currently
    if newdur = s.dur then
      (s, { ackClosed := true })
    else if newdur ≤ 0 then
      -- stopping timeouts: heartbeat.Stop(); dur = tk.newdur;
      -- heartbeat, heartch = nil; t.timeOutRaised = false
      ({ s with tickerActive := false, dur := newdur, timeOutRaised := false },
       { ackClosed := true })
    else
      -- changing an active timeout dur: new ticker at newdur; t.Reset()
      ({ s with dur := newdur, tickerActive := true, last := now % U64 },
       { ackClosed := true })
  else
    -- heartbeats not currently active
    if newdur ≤ 0 then
      -- staying inactive: dur = 0
      ({ s with dur := 0 }, { ackClosed := true })
    else
      -- heartbeats activating: t.timeOutRaised = false; ticker; t.Reset()
      ({ s with timeOutRaised := false, dur := newdur, tickerActive := true,
                last := now % U64 },
       { ackClosed := true })

/-- The `case <-heartch:` arm of the loop.  Only reachable when the ticker is
active (`heartch` non-nil). -/
def handleTick (s : TimerState) (now : Nat) : StepResult :=
  if s.dur = 0 then
    .panicked "should be impossible to get heartbeat.C on dur == 0"
  else if uint64OfInt s.dur < nanosecSince now s.last then
    if s.hasCallback then
      .next { s with timeOutRaised := true, tickerActive := false }
        { spawnedCallback := true }
    else
      .panicked "idleTimer.timeoutCallback was never set! call t.setTimeoutCallback()!!!"
  else
    .next s {}

/-- One iteration of the `for { select { ... } }` loop of `backgroundStart`.
A `tick` arriving while the ticker is inactive cannot be selected
(`heartch` is nil) and leaves the actor untouched. -/
def step (s : TimerState) (m : Msg) : StepResult :=
  match m with
  | .reqStop => .exited s
  | .queryTimedOut => .next s { sentTimedOut := some s.timeOutRaised }
  | .setCallback h => .next { s with hasCallback := h } {}
  | .queryGetIdleTimeout => .next s { sentDur := some s.dur }
  | .setIdleTimeout nd now =>
      let p := handleSetIdleTimeout s nd now
      .next p.1 p.2
  | .tick now => if s.tickerActive then handleTick s now else .next s {}
  | .reset now => .next { s with last := now % U64 } {}

/-- `newIdleTimer(callback, dur)` followed by the prologue of
`backgroundStart(dur)`: `last` keeps its zero value (no `Reset()` on this
path) and a ticker is created exactly when `dur > 0`. -/
def initTimer (hasCallback : Bool) (dur : Duration) : TimerState :=
  { dur := dur, last := 0, timeOutRaised := false,
    hasCallback := hasCallback,
    tickerActive := if 0 < dur then true else false }

/-- A message that can (re)start the periodic check: a `SetIdleTimeout`
request with a positive duration. -/
def isActivation (m : Msg) : Bool :=
  match m with
  | .setIdleTimeout nd _ => if 0 < nd then true else false
  | _ => false

/-- Whether some message of the trace is an activation. -/
def hasActivation (ms : List Msg) : Bool := ms.any isActivation

/-- Number of callback goroutines spawned while the actor services the
trace `ms` from state `s` (stopping at loop exit or panic). -/
def runCount (s : TimerState) (ms : List Msg) : Nat :=
  match ms with
  | [] => 0
  | m :: rest =>
    match step s m with
    | .next s2 o => (if o.spawnedCallback then 1 else 0) + runCount s2 rest
    | .exited _ => 0
    | .panicked _ => 0

/-- Along the trace `ms` from state `s`, the actor never reports
`TimedOut = true` and never spawns the callback. -/
def reportsNoTimeout (s : TimerState) (ms : List Msg) : Bool :=
  match ms with
  | [] => true
  | m :: rest =>
    match step s m with
    | .next s2 o =>
        (o.sentTimedOut ≠ some true) && (o.spawnedCallback = false) &&
          reportsNoTimeout s2 rest
    | .exited _ => true
    | .panicked _ => true

/-- Servicing a non-activation message from a state whose ticker is stopped
keeps the ticker stopped, never spawns the callback, and (when the fired
flag is clear) neither raises it nor reports `TimedOut = true`. -/
theorem step_ticker_off (s : TimerState) (m : Msg)
    (hoff : s.tickerActive = false) (hm : isActivation m = false) :
    match step s m with
    | .next s2 o =>
        s2.tickerActive = false ∧ o.spawnedCallback = false ∧
        (s.timeOutRaised = false →
          s2.timeOutRaised = false ∧ o.sentTimedOut ≠ some true)
    | .exited _ => True
    | .panicked _ => True := by
  cases m with
  | reqStop => simp [step]
  | queryTimedOut => simp [step, hoff]
  | setCallback b => simp [step, hoff]
  | queryGetIdleTimeout => simp [step, hoff]
  | setIdleTimeout nd now =>
      simp [isActivation] at hm
      simp only [step, handleSetIdleTimeout]
      split_ifs with hd he <;> simp_all
  | tick now => simp [step, hoff]
  | reset now => simp [step, hoff]

/-- Once the ticker is stopped, no callback is spawned along any trace that
contains no activation. -/
theorem runCount_ticker_off (s : TimerState) (ms : List Msg)
    (hoff : s.tickerActive = false) (hact : hasActivation ms = false) :
    runCount s ms = 0 := by
  induction ms generalizing s with
  | nil => rfl
  | cons m rest ih =>
      simp [hasActivation, List.any_cons] at hact
      obtain ⟨hm, hrest⟩ := hact
      have hs := step_ticker_off s m hoff hm
      unfold runCount
      cases hstep : step s m with
      | next s2 o =>
          rw [hstep] at hs
          obtain ⟨h1, h2, _⟩ := hs
          show (if o.spawnedCallback = true then 1 else 0) + runCount s2 rest = 0
          rw [h2]
          have hact2 : hasActivation rest = false := by
            simp [hasActivation]
            exact hrest
          simp [ih s2 h1 hact2]
      | exited s2 => rfl
      | panicked msg => rfl

/-- Once the ticker is stopped and the fired flag is clear, the actor keeps
reporting `TimedOut = false` and spawns no callback along any trace that
contains no activation. -/
theorem reportsNoTimeout_ticker_off (s : TimerState) (ms : List Msg)
    (hoff : s.tickerActive = false) (hraised : s.timeOutRaised = false)
    (hact : hasActivation ms = false) :
    reportsNoTimeout s ms = true := by
  induction ms generalizing s with
  | nil => rfl
  | cons m rest ih =>
      simp [hasActivation, List.any_cons] at hact
      obtain ⟨hm, hrest⟩ := hact
      have hs := step_ticker_off s m hoff hm
      unfold reportsNoTimeout
      cases hstep : step s m with
      | next s2 o =>
          rw [hstep] at hs
          obtain ⟨h1, h2, h3⟩ := hs
          obtain ⟨h4, h5⟩ := h3 hraised
          show ((o.sentTimedOut ≠ some true : Bool) &&
              (o.spawnedCallback = false : Bool) &&
              reportsNoTimeout s2 rest) = true
          have hact2 : hasActivation rest = false := by
            simp [hasActivation]
            exact hrest
          simp [h2, h5, ih s2 h1 h4 hact2]
      | exited s2 => rfl
      | panicked msg => rfl

/-- C1: for an Armed timer (configured duration `dur > 0`, ticker running),
each heartbeat tick compares `NanosecSince()` with `uint64(dur)`: when the
elapsed nanoseconds are at most `dur` the state is unchanged and nothing is
emitted; when they strictly exceed `dur` the fired flag is set, the ticker is
stopped, and the callback is spawned on a fresh goroutine (recorded as the
`spawnedCallback` output), after which no further callback is spawned along
any continuation that contains no re-arming `SetIdleTimeout` — the firing
trace spawns the callback exactly once. -/
theorem armed_tick_fires_exactly_once (s : TimerState) (now : Nat)
    (ms : List Msg) (hdur : 0 < s.dur) (hticker : s.tickerActive = true) :
    (nanosecSince now s.last ≤ uint64OfInt s.dur →
      step s (.tick now) = .next s {}) ∧
    (uint64OfInt s.dur < nanosecSince now s.last → s.hasCallback = true →
      step s (.tick now) =
        .next { s with timeOutRaised := true, tickerActive := false }
          { spawnedCallback := true } ∧
      (hasActivation ms = false → runCount s (Msg.tick now :: ms) = 1)) := by
  have hz : ¬ s.dur = 0 := ne_of_gt hdur
  constructor
  · intro hle
    simp [step, hticker, handleTick, hz, Nat.not_lt.mpr hle]
  · intro hlt hcb
    have hfire : step s (.tick now) =
        .next { s with timeOutRaised := true, tickerActive := false }
          { spawnedCallback := true } := by
      simp [step, hticker, handleTick, hz, hlt, hcb]
    refine ⟨hfire, fun hact => ?_⟩
    unfold runCount
    rw [hfire]
    show (if ({ spawnedCallback := true } : Output).spawnedCallback = true
        then 1 else 0) +
      runCount { s with timeOutRaised := true, tickerActive := false } ms = 1
    rw [runCount_ticker_off _ ms rfl hact]
    simp

/-- Witness for C1: a concrete armed timer at `dur = 5` ns: a tick at
elapsed 3 ns changes nothing; a tick at elapsed 10 ns fires, and over the
continuation (query, reset, another tick) the callback is spawned exactly
once. -/
theorem armed_tick_fires_exactly_once_witness :
    step ⟨5, 0, false, true, true⟩ (.tick 3) = .next ⟨5, 0, false, true, true⟩ {} ∧
    runCount ⟨5, 0, false, true, true⟩
      [Msg.tick 10, Msg.queryTimedOut, Msg.reset 20, Msg.tick 30] = 1 := by
  constructor
  · exact (armed_tick_fires_exactly_once ⟨5, 0, false, true, true⟩ 3 []
      (by decide) rfl).1 (by decide)
  · exact ((armed_tick_fires_exactly_once ⟨5, 0, false, true, true⟩ 10
      [Msg.queryTimedOut, Msg.reset 20, Msg.tick 30]
      (by decide) rfl).2 (by decide) rfl).2 (by decide)

/-- C3: for an active timer (`dur > 0`), `SetIdleTimeout` with the same
duration only acknowledges: the state (including `last`, the fired flag and
the ticker) is returned completely unchanged. -/
theorem set_same_dur_noop (s : TimerState) (nd : Duration) (now : Nat)
    (hdur : 0 < s.dur) (heq : nd = s.dur) :
    step s (.setIdleTimeout nd now) = .next s { ackClosed := true } := by
  subst heq
  simp [step, handleSetIdleTimeout, hdur]

/-- Witness for C3: a concrete fired timer (`dur = 5`, fired flag raised,
ticker already stopped, `last = 7`): `SetIdleTimeout(5)` leaves every field
as it was. -/
theorem set_same_dur_noop_witness :
    step ⟨5, 7, true, true, false⟩ (.setIdleTimeout 5 100) =
      .next ⟨5, 7, true, true, false⟩ { ackClosed := true } :=
  set_same_dur_noop ⟨5, 7, true, true, false⟩ 5 100 (by decide) rfl

/-- C4: for an active timer (`dur > 0`), `SetIdleTimeout` with `newDur ≤ 0`
stops the ticker, clears the fired flag and acknowledges; afterwards, along
any trace with no re-activating `SetIdleTimeout`, every `TimedOut` report is
`false` and no callback is ever spawned. -/
theorem set_nonpositive_deactivates (s : TimerState) (nd : Duration)
    (now : Nat) (hdur : 0 < s.dur) (hnd : nd ≤ 0) :
    step s (.setIdleTimeout nd now) =
      .next { s with dur := nd, tickerActive := false, timeOutRaised := false }
        { ackClosed := true } ∧
    ∀ ms, hasActivation ms = false →
      reportsNoTimeout
        { s with dur := nd, tickerActive := false, timeOutRaised := false }
        ms = true := by
  have hne : ¬ nd = s.dur := ne_of_lt (lt_of_le_of_lt hnd hdur)
  refine ⟨?_, fun ms hact => reportsNoTimeout_ticker_off _ ms rfl rfl hact⟩
  simp [step, handleSetIdleTimeout, hdur, hne, hnd]

/-- Witness for C4: a concrete armed-and-fired configuration (`dur = 5`,
fired flag raised) deactivated with `SetIdleTimeout(0)`: the fired flag is
cleared, and over a continuation with very late ticks and queries the actor
keeps reporting `TimedOut = false` with no callback spawned. -/
theorem set_nonpositive_deactivates_witness :
    step ⟨5, 2, true, true, true⟩ (.setIdleTimeout 0 9) =
      .next ⟨0, 2, false, true, false⟩ { ackClosed := true } ∧
    reportsNoTimeout ⟨0, 2, false, true, false⟩
      [Msg.tick 1000000, Msg.queryTimedOut, Msg.reset 5, Msg.tick 2000000,
       Msg.queryTimedOut] = true := by
  have h := set_nonpositive_deactivates ⟨5, 2, true, true, true⟩ 0 9
    (by decide) (by decide)
  exact ⟨h.1, h.2 _ (by decide)⟩

/-- C2 as stated is false: from the Fired state (`dur = 5`, fired flag true,
ticker stopped), `SetIdleTimeout(7)` takes the "changing an active timeout
dur" branch, which restarts the ticker and stamps `last` but does NOT clear
the fired flag — immediately after the acknowledgment the fired flag is
still `true`, not `false`. -/
theorem rearm_clears_fired_counterexample :
    step ⟨5, 0, true, true, false⟩ (.setIdleTimeout 7 100) =
      .next ⟨7, 100, true, true, true⟩ { ackClosed := true } ∧
    (⟨7, 100, true, true, true⟩ : TimerState).timeOutRaised ≠ false := by
  decide

/-- C2 (amended): if the timer is Fired (`dur > 0`, fired flag true) and
`SetIdleTimeout` is called with a positive duration different from the
current one, the ticker is restarted at the new interval and the elapsed
clock is reset (`last` is stamped with the current monotonic time), but the
fired flag is left raised: `TimedOut` still reports `true` after the call. -/
theorem rearm_restarts_ticker_keeps_fired (s : TimerState) (nd : Duration)
    (now : Nat) (hdur : 0 < s.dur) (hraised : s.timeOutRaised = true)
    (hpos : 0 < nd) (hne : ¬ nd = s.dur) :
    step s (.setIdleTimeout nd now) =
      .next { s with dur := nd, tickerActive := true, last := now % U64 }
        { ackClosed := true } ∧
    ({ s with dur := nd, tickerActive := true, last := now % U64 }
        : TimerState).timeOutRaised = true := by
  constructor
  · simp [step, handleSetIdleTimeout, hdur, hne, not_le.mpr hpos]
  · simpa using hraised

/-- Witness for the amended C2, at the same Fired configuration as the
counterexample. -/
theorem rearm_restarts_ticker_keeps_fired_witness :
    step ⟨5, 0, true, true, false⟩ (.setIdleTimeout 7 100) =
      .next ⟨7, 100 % U64, true, true, true⟩ { ackClosed := true } ∧
    (⟨7, 100 % U64, true, true, true⟩ : TimerState).timeOutRaised = true :=
  rearm_restarts_ticker_keeps_fired ⟨5, 0, true, true, false⟩ 7 100
    (by decide) rfl (by decide) (by decide)

/-- C5 fails on the code, which contradicts `GetIdleTimeout`'s own doc
comment ("It will return 0 if timeouts are disabled"): deactivating an
ACTIVE timer stores `dur = tk.newdur` itself, so a negative requested
duration is stored verbatim, and the subsequent `GetIdleTimeout` reports
`-1`, not `0`, although timeouts are now disabled (ticker stopped, fired
flag permanently false). Only the inactive branch normalizes `dur` to `0`. -/
theorem negative_disable_getIdleTimeout_bug :
    step ⟨5, 0, false, true, true⟩ (.setIdleTimeout (-1) 100) =
      .next ⟨-1, 0, false, true, false⟩ { ackClosed := true } ∧
    step ⟨-1, 0, false, true, false⟩ .queryGetIdleTimeout =
      .next ⟨-1, 0, false, true, false⟩ { sentDur := some (-1) } ∧
    some (-1 : Duration) ≠ some (0 : Duration) := by
  decide

/-- C8: invariant violations detected on a heartbeat tick abort the process:
a tick serviced while the configured duration is `0` panics, and a tick that
detects staleness (`NanosecSince() > uint64(dur)`) with no registered
callback panics instead of silently continuing. -/
theorem tick_invariant_violations_panic (s : TimerState) (now : Nat) :
    (s.tickerActive = true → s.dur = 0 →
      step s (.tick now) =
        .panicked "should be impossible to get heartbeat.C on dur == 0") ∧
    (s.tickerActive = true → ¬ s.dur = 0 →
      uint64OfInt s.dur < nanosecSince now s.last → s.hasCallback = false →
      step s (.tick now) =
        .panicked "idleTimer.timeoutCallback was never set! call t.setTimeoutCallback()!!!") := by
  constructor
  · intro ht hz
    simp [step, ht, handleTick, hz]
  · intro ht hz hlt hcb
    simp [step, ht, handleTick, hz, hlt, hcb]

/-- Witness for C8: concrete ticks hitting both panics. -/
theorem tick_invariant_violations_panic_witness :
    step ⟨0, 0, false, true, true⟩ (.tick 5) =
      .panicked "should be impossible to get heartbeat.C on dur == 0" ∧
    step ⟨5, 0, false, false, true⟩ (.tick 10) =
      .panicked "idleTimer.timeoutCallback was never set! call t.setTimeoutCallback()!!!" :=
  ⟨(tick_invariant_violations_panic ⟨0, 0, false, true, true⟩ 5).1 rfl rfl,
   (tick_invariant_violations_panic ⟨5, 0, false, false, true⟩ 10).2 rfl
     (by decide) (by decide) rfl⟩

/-- C9: `newIdleTimer` with an initial duration `dur > 0` starts the ticker
immediately but never calls `Reset()`: `last` keeps its zero value, so the
first tick measures elapsed time from the monotonic clock's epoch
(`NanosecSince() = now`), unlike activation through `SetIdleTimeout`, which
always stamps `last` with the current monotonic time before acknowledging. -/
theorem init_starts_ticker_without_reset (cb : Bool) (dur : Duration)
    (now : Nat) :
    (initTimer cb dur).last = 0 ∧
    (0 < dur → (initTimer cb dur).tickerActive = true) ∧
    nanosecSince now (initTimer cb dur).last = now % U64 ∧
    (∀ (s : TimerState) (nd : Duration) (now2 : Nat),
      ¬ 0 < s.dur → 0 < nd →
      step s (.setIdleTimeout nd now2) =
        .next { s with timeOutRaised := false, dur := nd,
                       tickerActive := true, last := now2 % U64 }
          { ackClosed := true }) := by
  refine ⟨rfl, fun h => by simp [initTimer, h], ?_, ?_⟩
  · show (now % U64 + (U64 - 0 % U64)) % U64 = now % U64
    simp [Nat.add_mod_right]
  · intro s nd now2 hnotpos hpos
    simp [step, handleSetIdleTimeout, hnotpos, not_le.mpr hpos]

/-- Witness for C9: a timer built with `dur = 5` has `last = 0`, a running
ticker, and a first-tick elapsed time equal to the raw clock value `42`;
activating an inactive timer via `SetIdleTimeout(5)` stamps `last = 9`. -/
theorem init_starts_ticker_without_reset_witness :
    (initTimer true 5).last = 0 ∧
    (initTimer true 5).tickerActive = true ∧
    nanosecSince 42 (initTimer true 5).last = 42 ∧
    step ⟨0, 3, true, false, false⟩ (.setIdleTimeout 5 9) =
      .next ⟨5, 9, false, false, true⟩ { ackClosed := true } := by
  have h := init_starts_ticker_without_reset true 5 42
  refine ⟨h.1, h.2.1 (by decide), ?_, ?_⟩
  · rw [h.2.2.1]
    decide
  · rw [h.2.2.2 ⟨0, 3, true, false, false⟩ 5 9 (by decide) (by decide)]
    decide

/-- Modelled from the spec: the Cooperative Canceller ("Halter", created by
`NewHalter()`) is not among the provided sources.  Per the spec it is a pair
of one-shot signals — "stop requested" (`ReqStop`) and "done" (`Done`) —
each realized as a channel that is closed at most once.  A receive on a
closed channel is always ready; on an open one it never fires before the
close. -/
structure Halter where
  reqStopClosed : Bool
  doneClosed : Bool
deriving Repr, DecidableEq

/-- Outcome of a two-case Go `select`. -/
inductive SelChoice where
  | first
  | second
  | blocked
deriving Repr, DecidableEq

/-- A two-case Go `select`: blocks exactly when neither case is ready; when
both are ready, the scheduler's nondeterministic choice is the `pref1`
parameter. -/
def select2 (ready1 ready2 pref1 : Bool) : SelChoice :=
  if ready1 && ready2 then (if pref1 then .first else .second)
  else if ready1 then .first
  else if ready2 then .second
  else .blocked

/-- A caller's view of one blocking command call: whether it blocked forever
and whether its command was actually delivered to the actor loop. -/
structure CmdCallResult where
  blocked : Bool
  delivered : Bool
deriving Repr, DecidableEq

/-- `SetIdleTimeout`'s caller side: first `select` races the ticket send on
`setIdleTimeoutCh` against `halt.ReqStop.Chan`, the second races the ticket's
`done` against `halt.ReqStop.Chan`.  `actorAccepts` / `ackReady` say whether
the actor loop is at its own `select` ready to rendezvous / has closed the
ticket; `pref1`, `pref2` are the scheduler's choices when both are ready. -/
def setIdleTimeoutCall (h : Halter) (actorAccepts ackReady pref1 pref2 : Bool) :
    CmdCallResult :=
  match select2 actorAccepts h.reqStopClosed pref1 with
  | .blocked => { blocked := true, delivered := false }
  | .first =>
      match select2 ackReady h.reqStopClosed pref2 with
      | .blocked => { blocked := true, delivered := true }
      | _ => { blocked := false, delivered := true }
  | .second =>
      match select2 ackReady h.reqStopClosed pref2 with
      | .blocked => { blocked := true, delivered := false }
      | _ => { blocked := false, delivered := false }

/-- `GetIdleTimeout`'s caller side: one `select` racing the receive on
`getIdleTimeoutCh` against `halt.ReqStop.Chan`. -/
def getIdleTimeoutCall (h : Halter) (actorReady pref : Bool) : CmdCallResult :=
  match select2 actorReady h.reqStopClosed pref with
  | .blocked => { blocked := true, delivered := false }
  | .first => { blocked := false, delivered := true }
  | .second => { blocked := false, delivered := false }

/-- `setTimeoutCallback`'s caller side: one `select` racing the send on
`setCallback` against `halt.ReqStop.Chan`. -/
def setTimeoutCallbackCall (h : Halter) (actorReady pref : Bool) :
    CmdCallResult :=
  match select2 actorReady h.reqStopClosed pref with
  | .blocked => { blocked := true, delivered := false }
  | .first => { blocked := false, delivered := true }
  | .second => { blocked := false, delivered := false }

/-- C6: once the stop signal has been requested (`ReqStop` closed), no
blocking command call can block: every `select` has its `ReqStop` case
ready, for any scheduler choice and any actor readiness — and when the
actor no longer rendezvouses (as after its loop has exited), the call
returns with the command undelivered, i.e. without effect. -/
theorem stopped_calls_never_block (h : Halter)
    (a1 a2 p1 p2 a3 p3 a4 p4 : Bool) (hstop : h.reqStopClosed = true) :
    (setIdleTimeoutCall h a1 a2 p1 p2).blocked = false ∧
    (getIdleTimeoutCall h a3 p3).blocked = false ∧
    (setTimeoutCallbackCall h a4 p4).blocked = false ∧
    (a1 = false → (setIdleTimeoutCall h a1 a2 p1 p2).delivered = false) ∧
    (a3 = false → (getIdleTimeoutCall h a3 p3).delivered = false) ∧
    (a4 = false → (setTimeoutCallbackCall h a4 p4).delivered = false) := by
  obtain ⟨rs, dn⟩ := h
  cases rs with
  | false => cases hstop
  | true =>
      revert a1 a2 p1 p2 a3 p3 a4 p4 dn
      decide

/-- Witness for C6: a concrete stopped halter with the actor gone. -/
theorem stopped_calls_never_block_witness :
    (setIdleTimeoutCall ⟨true, true⟩ false false false false).blocked = false ∧
    (setIdleTimeoutCall ⟨true, true⟩ false false false false).delivered = false := by
  have h := stopped_calls_never_block ⟨true, true⟩
    false false false false false false false false rfl
  exact ⟨h.1, h.2.2.2.1 rfl⟩

/-- Outcome of `idleTimer.Stop()`. -/
inductive StopOutcome where
  | returned
  | panicked
deriving Repr, DecidableEq

/-- `Stop()`: closes `halt.ReqStop` (requesting termination via the
canceller, modelled from the spec since the Halter source is external), then
selects `halt.Done.Chan` against `time.After(10 * time.Second)`;
`doneWithinGrace` says whether the actor closed `Done` inside the grace
period. -/
def StopCall (h : Halter) (doneWithinGrace : Bool) : Halter × StopOutcome :=
  ({ h with reqStopClosed := true },
   if doneWithinGrace then .returned else .panicked)

/-- Resource actions of the deferred block that runs when the actor loop of
`backgroundStart` returns. -/
inductive ExitAction where
  | stopTicker
  | closeDone
deriving Repr, DecidableEq

/-- The deferred block of `backgroundStart`: `heartbeat.Stop()` if a ticker
is active, then `t.halt.Done.Close()`. -/
def loopExitActions (s : TimerState) : List ExitAction :=
  (if s.tickerActive then [ExitAction.stopTicker] else []) ++
    [ExitAction.closeDone]

/-- C7: `Stop()` requests termination by closing `ReqStop`, then blocks
until `Done` fires or the 10-second grace period elapses; on timeout it
panics instead of returning.  The actor loop exits on the stop signal, and
its deferred block closes `Done` only as its final action, after stopping
any active ticker. -/
theorem stop_protocol (h : Halter) (s : TimerState) (d : Bool) :
    (StopCall h d).1.reqStopClosed = true ∧
    (d = true → (StopCall h d).2 = .returned) ∧
    (d = false → (StopCall h d).2 = .panicked) ∧
    step s .reqStop = .exited s ∧
    (loopExitActions s).getLast? = some .closeDone ∧
    (s.tickerActive = true →
      loopExitActions s = [ExitAction.stopTicker, ExitAction.closeDone]) := by
  refine ⟨rfl, ?_, ?_, rfl, ?_, ?_⟩
  · intro hd
    simp [StopCall, hd]
  · intro hd
    simp [StopCall, hd]
  · cases ht : s.tickerActive <;> simp [loopExitActions, ht]
  · intro ht
    simp [loopExitActions, ht]

/-- Witness for C7: a concrete halter and an armed timer state. -/
theorem stop_protocol_witness :
    (StopCall ⟨false, false⟩ true).2 = StopOutcome.returned ∧
    (StopCall ⟨false, false⟩ false).2 = StopOutcome.panicked ∧
    loopExitActions ⟨5, 0, false, true, true⟩ =
      [ExitAction.stopTicker, ExitAction.closeDone] := by
  refine ⟨(stop_protocol ⟨false, false⟩ ⟨5, 0, false, true, true⟩ true).2.1 rfl,
    (stop_protocol ⟨false, false⟩ ⟨5, 0, false, true, true⟩ false).2.2.1 rfl,
    (stop_protocol ⟨false, false⟩ ⟨5, 0, false, true, true⟩ true).2.2.2.2.2 rfl⟩

/-- `hasSubList need hay`: `need` occurs contiguously somewhere in `hay`. -/
def hasSubList (need : List Char) : List Char → Bool
  | [] => need.isEmpty
  | c :: t => need.isPrefixOf (c :: t) || hasSubList need t

/-- `strHasSub hay need`: `need` occurs as a substring of `hay`. -/
def strHasSub (hay need : String) : Bool :=
  hasSubList need.toList hay.toList

/-- `LoadRSAPrivateKey` of rsa.go over abstract effects: `readFile` stands
for `ioutil.ReadFile` and `parsePriv` for `ssh.ParsePrivateKey`; Go's
`(value, error)` results, of which exactly one side is set, are an `Except`.
Both failures are wrapped by `fmt.Errorf` messages naming the path. -/
def LoadRSAPrivateKey {σ : Type} (readFile : String → Except String (List Nat))
    (parsePriv : List Nat → Except String σ) (path : String) :
    Except String σ :=
  match readFile path with
  | .error e =>
      .error ("got error '" ++ e ++ "' trying to read path '" ++ path ++ "'")
  | .ok buf =>
    match parsePriv buf with
    | .error e =>
        .error ("got error '" ++ e ++
          "' trying to parse private key from path '" ++ path ++ "'")
    | .ok k => .ok k

/-- `LoadRSAPublicKey` of rsa.go over abstract effects: `parseAuth` stands
for `ssh.ParseAuthorizedKey`.  Both the read error and the parse error are
returned unmodified (`if err != nil { return }` and a bare `return`). -/
def LoadRSAPublicKey {σ : Type} (readFile : String → Except String (List Nat))
    (parseAuth : List Nat → Except String σ) (path : String) :
    Except String σ :=
  match readFile path with
  | .error e => .error e
  | .ok buf =>
    match parseAuth buf with
    | .error e => .error e
    | .ok k => .ok k

theorem isPrefixOf_self_append (l t : List Char) :
    l.isPrefixOf (l ++ t) = true := by
  induction l with
  | nil => cases t <;> rfl
  | cons c l ih => simp [List.isPrefixOf, ih]

theorem hasSubList_nil_need (l : List Char) : hasSubList [] l = true := by
  cases l <;> simp [hasSubList, List.isPrefixOf]

theorem hasSubList_middle (need pre post : List Char) :
    hasSubList need (pre ++ (need ++ post)) = true := by
  induction pre with
  | nil =>
      simp only [List.nil_append]
      cases need with
      | nil => exact hasSubList_nil_need post
      | cons c nd =>
          have hp : (c :: nd).isPrefixOf (c :: (nd ++ post)) = true := by
            rw [← List.cons_append]
            exact isPrefixOf_self_append (c :: nd) post
          simp [hasSubList, hp]
  | cons c pre ih => simp [hasSubList, ih]

/-- Any string of the shape `a ++ mid ++ b` contains `mid` as a substring. -/
theorem strHasSub_append (a mid b : String) :
    strHasSub (a ++ mid ++ b) mid = true := by
  unfold strHasSub
  show hasSubList mid.data (a ++ mid ++ b).data = true
  rw [String.data_append, String.data_append, List.append_assoc]
  exact hasSubList_middle mid.data a.data b.data

/-- Concrete `ioutil.ReadFile` succeeding with an empty blob. -/
def cexReadFile : String → Except String (List Nat) := fun _ => .ok []

/-- Concrete `ssh.ParseAuthorizedKey` failing with its usual message. -/
def cexParseAuth : List Nat → Except String Unit :=
  fun _ => .error "ssh: no key found"

/-- C10 as stated is false: when `ssh.ParseAuthorizedKey` fails,
`LoadRSAPublicKey` returns the parse error unmodified, and that error does
not mention the offending path — here the path `/tmp/k.pub` does not occur
in the returned message "ssh: no key found". -/
theorem load_rsa_pubkey_path_counterexample :
    LoadRSAPublicKey cexReadFile cexParseAuth "/tmp/k.pub" =
      .error "ssh: no key found" ∧
    strHasSub "ssh: no key found" "/tmp/k.pub" = false :=
  ⟨rfl, by decide⟩

/-- C10 (amended): on every input path, both loaders return either the
parsed key (with no error) or no key and an error; `LoadRSAPrivateKey`
wraps both the read failure and the parse failure in a message naming the
offending path, while `LoadRSAPublicKey` propagates the underlying read or
parse error unmodified, so its errors need not mention the path. -/
theorem load_rsa_error_reporting {σ : Type}
    (readFile : String → Except String (List Nat))
    (pp pa : List Nat → Except String σ) (path e : String)
    (buf : List Nat) (k : σ) :
    (readFile path = .error e →
      LoadRSAPrivateKey readFile pp path =
        .error ("got error '" ++ e ++ "' trying to read path '" ++ path ++ "'") ∧
      strHasSub ("got error '" ++ e ++ "' trying to read path '" ++ path ++ "'")
        path = true) ∧
    (readFile path = .ok buf → pp buf = .error e →
      LoadRSAPrivateKey readFile pp path =
        .error ("got error '" ++ e ++
          "' trying to parse private key from path '" ++ path ++ "'") ∧
      strHasSub ("got error '" ++ e ++
          "' trying to parse private key from path '" ++ path ++ "'")
        path = true) ∧
    (readFile path = .ok buf → pp buf = .ok k →
      LoadRSAPrivateKey readFile pp path = .ok k) ∧
    (readFile path = .error e → LoadRSAPublicKey readFile pa path = .error e) ∧
    (readFile path = .ok buf → pa buf = .error e →
      LoadRSAPublicKey readFile pa path = .error e) ∧
    (readFile path = .ok buf → pa buf = .ok k →
      LoadRSAPublicKey readFile pa path = .ok k) := by
  refine ⟨fun h1 => ⟨?_, ?_⟩, fun h1 h2 => ⟨?_, ?_⟩,
    fun h1 h2 => ?_, fun h1 => ?_, fun h1 h2 => ?_, fun h1 h2 => ?_⟩
  · simp [LoadRSAPrivateKey, h1]
  · have := strHasSub_append ("got error '" ++ e ++ "' trying to read path '")
      path "'"
    simpa [String.append_assoc] using this
  · simp [LoadRSAPrivateKey, h1, h2]
  · have := strHasSub_append
      ("got error '" ++ e ++ "' trying to parse private key from path '")
      path "'"
    simpa [String.append_assoc] using this
  · simp [LoadRSAPrivateKey, h1, h2]
  · simp [LoadRSAPublicKey, h1]
  · simp [LoadRSAPublicKey, h1, h2]
  · simp [LoadRSAPublicKey, h1, h2]

/-- Concrete `ioutil.ReadFile` failing as the OS would. -/
def wReadErr : String → Except String (List Nat) :=
  fun _ => .error "open /tmp/id_rsa: no such file or directory"

/-- Concrete `ssh.ParsePrivateKey` succeeding with an opaque signer. -/
def wParseOk : List Nat → Except String Nat := fun _ => .ok 7

/-- Witness for the amended C10: a concrete failing read through
`LoadRSAPrivateKey` yields the wrapped message, which contains the path. -/
theorem load_rsa_error_reporting_witness :
    LoadRSAPrivateKey wReadErr wParseOk "/tmp/id_rsa" =
      .error "got error 'open /tmp/id_rsa: no such file or directory' trying to read path '/tmp/id_rsa'" ∧
    strHasSub "got error 'open /tmp/id_rsa: no such file or directory' trying to read path '/tmp/id_rsa'"
      "/tmp/id_rsa" = true := by
  have h := (load_rsa_error_reporting wReadErr wParseOk wParseOk "/tmp/id_rsa"
    "open /tmp/id_rsa: no such file or directory" [] 7).1 rfl
  constructor
  · rw [h.1]
    rfl
  · have := h.2
    rw [show ("got error '" ++ "open /tmp/id_rsa: no such file or directory" ++
        "' trying to read path '" ++ "/tmp/id_rsa" ++ "'") =
        "got error 'open /tmp/id_rsa: no such file or directory' trying to read path '/tmp/id_rsa'"
      from rfl] at this
    exact this

end Sshego
